import Mathlib

/-!
# Verification of `impact_t_beamline.py`

A shallow embedding of the `impact_t_beamline` repository: a run orchestrator
for the external IMPACT-T particle-beam simulation executable, plus two
defensive decorators (`try_except_timeout` and `block_negative_velocity`)
and two Gaussian unit-conversion helpers.

Modelling conventions:
* Python dictionaries become association lists `List (String × α)`; the first
  binding for a key is the one `dict` lookup sees, and `d1.update(d2)` keeps
  `d2`'s bindings in preference to `d1`'s (`dictUpdate`).
* Python floats in settings and output tables become `Rat` (the claims about
  them are order/equality comparisons only); the two Gaussian conversion
  helpers, whose claim is algebraic, are modelled over `ℝ`.
* The filesystem effects of `run()` and its five steps act on an explicit
  `World` (directories, files, and a trace of the external effects performed).
* External, fallible subsystems (the distgen generator pipeline
  `gen.run / drift_to_t / write_impact`, and the `mpirun` subprocess call)
  are oracle fields of the corresponding structures, returning
  `Except PyExc Unit`.
* `inspect`-based default extraction (`get_default_args`) is modelled by
  passing the wrapped function's declared-defaults mapping alongside it.
* The external reader `rd.read_fort_t` is modelled by the `forts` field of
  `ImpactTBeamline`: the contents of the `fort.N` files in the run directory.
-/

/-- Python exceptions that the orchestration code can see or raise. -/
inductive PyExc where
  | timeoutExpired
  | calledProcessError (returncode : Int)
  | indexError
  | genError (msg : String)
deriving DecidableEq, Repr

/-- One row of a parsed `fort.N` summary table.  Only the columns the code
reads are modelled: `z` (position), `dist` (distance, used by `fort.18`),
and `avgPz` (longitudinal momentum, used by the negative-velocity guard). -/
structure FortRow where
  z : Rat
  dist : Rat
  avgPz : Rat
deriving DecidableEq, Repr

/-- A settings mapping (Python `dict` of variable name to value). -/
abbrev Settings := List (String × Rat)

/-- The dictionary returned by `BeamlineConfiguration.split`: bucket name to
sub-dictionary. -/
abbrev SplitDict := List (String × Settings)

/-- Python `d.find`-style lookup on an association list: value of the first
binding of key `k`, if any (Python `k in d` / `d[k]`). -/
def dget? {α : Type} (d : List (String × α)) (k : String) : Option α :=
  (d.find? (fun p => p.1 == k)).map (fun p => p.2)

/-- Python `d.get(k, dflt)`. -/
def dgetD {α : Type} (d : List (String × α)) (k : String) (dflt : α) : α :=
  (dget? d k).getD dflt

/-- Python `d1.update(d2)` (as the resulting dictionary): bindings of `d2`
take precedence over those of `d1`. -/
def dictUpdate {α : Type} (d1 d2 : List (String × α)) : List (String × α) :=
  d2 ++ d1.filter (fun p => d2.all (fun q => !(q.1 == p.1)))

/-- Modelled from the spec: `BeamlineConfiguration.split` (the
`beamline_configuration` package is not part of this repository's sources).
The spec describes it as a static partition rule that sends each settings key
either to a named "distgen" bucket or to the fallback "original" bucket
("unmatched keys default to the original bucket").  The static rule is the
parameter `rule`; both buckets are always present in the result. -/
def BeamlineConfiguration.split (rule : String → Bool) (settings : Settings) :
    SplitDict :=
  [("distgen", settings.filter (fun p => rule p.1)),
   ("original", settings.filter (fun p => !rule p.1))]

/-- Result of `settings_combi.get(name, settings_combi)` in the two
settings accessors: either the named sub-dictionary (`inl`) or, when the
bucket is absent, the whole split dictionary itself (`inr`). -/
abbrev GetResult := Sum Settings SplitDict

/-- Python `settings_combi.get(k, settings_combi)`. -/
def pyGetBucket (d : SplitDict) (k : String) : GetResult :=
  match d.find? (fun p => p.1 == k) with
  | some p => Sum.inl p.2
  | none => Sum.inr d

/-- The keys of a `GetResult`, whichever shape it has. -/
def sumKeys : GetResult → List String
  | Sum.inl d => d.map (fun p => p.1)
  | Sum.inr d => d.map (fun p => p.1)

/-- The input-deck template object (`self.impact_file`): its
`replace(variables=...)` + `write` pipeline is modelled by the external
`render` function producing the text that gets written. -/
structure ImpactFile where
  render : GetResult → String

/-- The distgen `Generator` object (`self.gen`).  `vars` are its current
settings (`gen[key] = val` assignments update them); `runGen` is the outcome
of the external generation pipeline (`gen.run()`, `drift_to_t`,
`write_impact`) as a function of the effective settings: on success the
distribution file is written, otherwise the raised exception is returned. -/
structure Generator where
  vars : Settings
  runGen : Settings → Except PyExc Unit

/-- The run orchestrator (`class ImpactTBeamline`).  Fields mirror
`__init__`; in addition `forts` models the contents of the `fort.N` files
readable from `run_dir` (the external `rd.read_fort_t`), and `impactExec`
models the outcome of the `mpirun` subprocess launched by `callImpactT`
(success, non-zero exit, or timeout). -/
structure ImpactTBeamline where
  settings : Settings
  impact_file : ImpactFile
  gen : Option Generator
  timeout : Option Nat
  num_process : Nat
  impact_exe_path : String
  run_dir : String
  data_files : List String
  has_particle_id : Bool
  forts : Nat → List FortRow
  impactExec : Except PyExc Unit

/-- The universe of Python values flowing through the decorators.  The
decorators inspect values only through `isinstance(·, ImpactTBeamline)`. -/
inductive Val where
  | none
  | num (x : Rat)
  | str (s : String)
  | beamline (b : ImpactTBeamline)

/-- Model of `isinstance(v, ImpactTBeamline)`, returning the instance. -/
def Val.asBeamline : Val → Option ImpactTBeamline
  | Val.beamline b => some b
  | _ => Option.none

/-- A wrapped Python function: positional args, keyword args, and an
`Except` result (an exception it raises, or its return value). -/
abbrev PyFunc := List Val → List (String × Val) → Except PyExc Val

/-- Source `gaussian_FWHM_to_RMS(FWHM)`: divide by `2*sqrt(2*ln 2)`.  The float
arithmetic of the source is modelled over `ℝ`. -/
noncomputable def gaussian_FWHM_to_RMS (FWHM : ℝ) : ℝ :=
  FWHM / (2 * Real.sqrt (2 * Real.log 2))

/-- Source `gaussian_RMS_to_FWHM(RMS)`: multiply by `2*sqrt(2*ln 2)`. -/
noncomputable def gaussian_RMS_to_FWHM (RMS : ℝ) : ℝ :=
  RMS * (2 * Real.sqrt (2 * Real.log 2))

/-- Decorator `try_except_timeout(func)` applied to a call `wrapper(*args, **kwargs)`.
`defaults` is `get_default_args(func)` (the declared keyword defaults of the
wrapped function).  Returns the list of `print`ed log lines together with
the call's outcome. -/
def try_except_timeout (func : PyFunc) (defaults : List (String × Val))
    (args : List Val) (kwargs : List (String × Val)) :
    List String × Except PyExc Val :=
  match func args kwargs with
  | Except.ok v => ([], Except.ok v)
  | Except.error PyExc.timeoutExpired =>
      let kwds := dictUpdate defaults kwargs
      match dget? kwds "timeout_value" with
      | some v => (["Command timed out"], Except.ok v)
      | Option.none => (["Command timed out"], Except.ok Val.none)
  | Except.error (PyExc.calledProcessError rc) =>
      (["Command failed with error: " ++ toString rc],
       Except.error (PyExc.calledProcessError rc))
  | Except.error e => ([], Except.error e)

/-- Method `ImpactTBeamline.getFort(fort_num)`: parse `fort.N` from the run
directory (external reader modelled by the `forts` field). -/
def ImpactTBeamline.getFort (b : ImpactTBeamline) (fort_num : Nat) :
    List FortRow :=
  b.forts fort_num

/-- Decorator `block_negative_velocity(func)` applied to a call
`wrapper(*args, **kwargs)`.  `defaults` is `get_default_args(func)`.
Mirrors the source: positional arguments are filtered by
`isinstance(·, ImpactTBeamline)` (here `filterMap Val.asBeamline`, which
filters and projects in one step); keyword arguments are also filtered by
type but the result is never used, as in the source; `myclass_args[0]`
raises `IndexError` when no positional argument is an `ImpactTBeamline`. -/
def block_negative_velocity (func : PyFunc) (defaults : List (String × Val))
    (args : List Val) (kwargs : List (String × Val)) : Except PyExc Val :=
  let myclass_args := args.filterMap Val.asBeamline
  let _myclass_kwargs := kwargs.filter (fun p => (Val.asBeamline p.2).isSome)
  match myclass_args with
  | [] => Except.error PyExc.indexError
  | temp_beamline :: _ =>
      let z_df := temp_beamline.getFort 26
      if z_df.any (fun r => decide (r.avgPz < 0)) then
        let kwds := dictUpdate defaults kwargs
        match dget? kwds "negative_v_value" with
        | some v => Except.ok v
        | Option.none => Except.ok Val.none
      else
        func args kwargs

/-- One external effect performed by the orchestration steps. -/
inductive Ev where
  | mkdirStep (path : String)
  | writeImpactInStep (path content : String)
  | writeDistStep (path : String)
  | copyFileStep (src dst : String)
  | execStep (cmd : String)
deriving DecidableEq, Repr

/-- The filesystem state the orchestrator acts on: the directories and file
paths that exist, together with the trace of effects performed so far. -/
structure World where
  dirs : List String
  files : List String
  trace : List Ev
deriving DecidableEq, Repr

/-- Model of `os.path.join(a, b)`. -/
def pathJoin (a b : String) : String := a ++ "/" ++ b

/-- Method `ImpactTBeamline.get_distgen_settings`:
`BeamlineConfiguration.split(self.settings).get('distgen', settings_combi)`.
`rule` is the static partition rule of the modelled `split`. -/
def ImpactTBeamline.get_distgen_settings (b : ImpactTBeamline)
    (rule : String → Bool) : GetResult :=
  let settings_combi := BeamlineConfiguration.split rule b.settings
  pyGetBucket settings_combi "distgen"

/-- Method `ImpactTBeamline.get_ImpactTin_settings`:
`BeamlineConfiguration.split(self.settings).get('original', settings_combi)`. -/
def ImpactTBeamline.get_ImpactTin_settings (b : ImpactTBeamline)
    (rule : String → Bool) : GetResult :=
  let settings_combi := BeamlineConfiguration.split rule b.settings
  pyGetBucket settings_combi "original"

/-- The distgen settings as a plain dictionary: under the modelled `split`
the "distgen" bucket is always present, so the `Sum.inr` fallback (the get
returning the whole split dictionary) is unreachable (lemma
`get_distgen_settings_eq_inl`). -/
def ImpactTBeamline.distgenVars (b : ImpactTBeamline)
    (rule : String → Bool) : Settings :=
  match b.get_distgen_settings rule with
  | Sum.inl d => d
  | Sum.inr _ => []

/-- Method `ImpactTBeamline.make_run_dir`: `os.makedirs(run_dir)` unless the
directory already exists. -/
def ImpactTBeamline.make_run_dir (b : ImpactTBeamline) (w : World) :
    World × Option PyExc :=
  if b.run_dir ∈ w.dirs then (w, Option.none)
  else ({ w with
            dirs := b.run_dir :: w.dirs
            trace := w.trace ++ [Ev.mkdirStep b.run_dir] }, Option.none)

/-- Method `ImpactTBeamline.makeImpactIn`: render the template with the
ImpactT.in-targeted settings and write the result to
`run_dir/impact_file_name`. -/
def ImpactTBeamline.makeImpactIn (b : ImpactTBeamline) (rule : String → Bool)
    (w : World) (impact_file_name : String := "ImpactT.in") :
    World × Option PyExc :=
  let content := b.impact_file.render (b.get_ImpactTin_settings rule)
  let path := pathJoin b.run_dir impact_file_name
  ({ w with
       files := w.files ++ [path]
       trace := w.trace ++ [Ev.writeImpactInStep path content] }, Option.none)

/-- Method `ImpactTBeamline.makeDist`: nothing when `self.gen is None`; otherwise
assign each distgen setting into the generator, run the external pipeline
(`gen.run()`, `drift_to_t`, `write_impact`), and on success the distribution
file appears at `run_dir/file_name`; an exception from the pipeline
propagates, leaving the world unchanged. -/
def ImpactTBeamline.makeDist (b : ImpactTBeamline) (rule : String → Bool)
    (w : World) (file_name : String := "partcl.data") :
    World × Option PyExc :=
  match b.gen with
  | Option.none => (w, Option.none)
  | some g =>
      let distgen_settings := b.distgenVars rule
      let effective := dictUpdate g.vars distgen_settings
      match g.runGen effective with
      | Except.error e => (w, some e)
      | Except.ok _ =>
          let path := pathJoin b.run_dir file_name
          ({ w with
               files := w.files ++ [path]
               trace := w.trace ++ [Ev.writeDistStep path] }, Option.none)

/-- The copy loop of `populateDataFiles`: `shutil.copy(DATA_DIR/f, run_dir)`
for each data file in order. -/
def copyAll (dataDir rd : String) : List String → World → World
  | [], w => w
  | f :: fs, w =>
      copyAll dataDir rd fs
        { w with
            files := w.files ++ [pathJoin rd f]
            trace := w.trace ++ [Ev.copyFileStep (pathJoin dataDir f) rd] }

/-- Method `ImpactTBeamline.populateDataFiles`: copy each auxiliary data file from
`DATA_DIR` into the run directory.  (`data_files` is modelled as a list; the
`None` default of `__init__`, on which the source's iteration would raise,
is not exercised by any claim.) -/
def ImpactTBeamline.populateDataFiles (b : ImpactTBeamline)
    (dataDir : String) (w : World) : World × Option PyExc :=
  (copyAll dataDir b.run_dir b.data_files w, Option.none)

/-- Method `ImpactTBeamline.callImpactT`: launch
`mpirun -n {num_process} {impact_exe_path} > output.txt` in `run_dir` and
block; the subprocess outcome is the `impactExec` oracle (a
`TimeoutExpired` or `CalledProcessError` propagates). -/
def ImpactTBeamline.callImpactT (b : ImpactTBeamline) (w : World) :
    World × Option PyExc :=
  match b.impactExec with
  | Except.ok _ =>
      ({ w with trace := w.trace ++
          [Ev.execStep ("mpirun -n " ++ toString b.num_process ++ " "
            ++ b.impact_exe_path ++ " > output.txt")] }, Option.none)
  | Except.error e => (w, some e)

/-- Method `ImpactTBeamline.run`: the five steps in the source's order, each
running only if the previous one did not raise. -/
def ImpactTBeamline.run (b : ImpactTBeamline) (rule : String → Bool)
    (dataDir : String) (w : World) : World × Option PyExc :=
  let s1 := b.make_run_dir w
  match s1.2 with
  | some e => (s1.1, some e)
  | Option.none =>
    let s2 := b.makeImpactIn rule s1.1
    match s2.2 with
    | some e => (s2.1, some e)
    | Option.none =>
      let s3 := b.makeDist rule s2.1
      match s3.2 with
      | some e => (s3.1, some e)
      | Option.none =>
        let s4 := b.populateDataFiles dataDir s3.1
        match s4.2 with
        | some e => (s4.1, some e)
        | Option.none => b.callImpactT s4.1

/-- Model of `np.argmin` on a list: index of the first occurrence of the minimum
(0 on the empty list, where numpy would raise). -/
def npArgmin : List Rat → Nat
  | [] => 0
  | [_] => 0
  | x :: y :: xs =>
      let i := npArgmin (y :: xs)
      if (y :: xs).getD i 0 < x then i + 1 else 0

/-- Method `ImpactTBeamline.getFort_z_pos`: for each requested position, the row of
`fort.{fort_num}` whose position column (`dist` for file 18, `z` otherwise)
is nearest; `Option.none` models the `np.argmin` failure on an empty table
with a nonempty request list. -/
def ImpactTBeamline.getFort_z_pos (b : ImpactTBeamline) (fort_num : Nat)
    (z_pos_list : List Rat) : Option (List FortRow) :=
  let df := b.getFort fort_num
  let z : List Rat :=
    if fort_num = 18 then df.map (fun r => r.dist)
    else df.map (fun r => r.z)
  if df.isEmpty && !z_pos_list.isEmpty then Option.none
  else
    some (z_pos_list.map (fun z_pos =>
      df.getD (npArgmin (z.map (fun zi => |zi - z_pos|))) ⟨0, 0, 0⟩))

/-- The position column selected by `getFort_z_pos` for one row: the `dist`
field when the file number is 18, the `z` field otherwise. -/
def fortField (fort_num : Nat) (r : FortRow) : Rat :=
  if fort_num = 18 then r.dist else r.z

/-- A concrete template object for examples. -/
def exFile : ImpactFile := ⟨fun _ => "deck"⟩

/-- A generator whose external pipeline succeeds. -/
def exGenOk : Generator := ⟨[("gvar", 0)], fun _ => Except.ok ()⟩

/-- A generator whose external pipeline raises. -/
def exGenBad : Generator :=
  ⟨[("gvar", 0)], fun _ => Except.error (PyExc.genError "distgen failed")⟩

/-- Example fort tables: `fort.26` has a negative `avgPz` row, `fort.18` and
`fort.24` are small monotone tables. -/
def exForts : Nat → List FortRow := fun n =>
  if n = 26 then [⟨0, 0, 2⟩, ⟨1, 1, -1⟩]
  else if n = 18 then [⟨1, 4, 1⟩, ⟨2, 5, 1⟩, ⟨3, 6, 1⟩]
  else [⟨1, 4, 1⟩, ⟨2, 5, 1⟩]

/-- Example fort tables with every `avgPz` nonnegative. -/
def exFortsPos : Nat → List FortRow := fun n =>
  if n = 26 then [⟨0, 0, 2⟩, ⟨1, 1, 1⟩]
  else [⟨1, 4, 1⟩, ⟨2, 5, 1⟩]

/-- A beamline with no generator whose `fort.26` shows negative `avgPz`. -/
def bNeg : ImpactTBeamline :=
  ⟨[("x", 1), ("y", 2)], exFile, Option.none, Option.none, 1, "ImpactTexe",
   "wd", ["rfdata1"], true, exForts, Except.ok ()⟩

/-- A beamline with no generator whose `fort.26` has no negative `avgPz`. -/
def bPos : ImpactTBeamline :=
  ⟨[("x", 1), ("y", 2)], exFile, Option.none, Option.none, 1, "ImpactTexe",
   "wd", ["rfdata1"], true, exFortsPos, Except.ok ()⟩

/-- A beamline whose full run succeeds. -/
def bRunOk : ImpactTBeamline :=
  ⟨[("x", 1), ("y", 2)], exFile, some exGenOk, Option.none, 4, "ImpactTexe",
   "wd", ["rfdata1", "rfdata2"], true, exFortsPos, Except.ok ()⟩

/-- A beamline whose distribution-generation step (step 3 of `run`) fails. -/
def bRunBad : ImpactTBeamline :=
  ⟨[("x", 1), ("y", 2)], exFile, some exGenBad, Option.none, 4, "ImpactTexe",
   "wd", ["rfdata1", "rfdata2"], true, exFortsPos, Except.ok ()⟩

/-- An example static partition rule: key `"x"` targets distgen. -/
def ruleEx : String → Bool := fun k => k == "x"

/-- An empty starting world. -/
def wEx : World := ⟨[], [], []⟩

/-- A wrapped function that always times out. -/
def funcTimeout : PyFunc := fun _ _ => Except.error PyExc.timeoutExpired

/-- A wrapped function that always fails with exit code 2. -/
def funcCalled : PyFunc := fun _ _ => Except.error (PyExc.calledProcessError 2)

/-- A wrapped function that returns normally. -/
def funcOk : PyFunc := fun _ _ => Except.ok (Val.num 99)

/-! ## Helper lemmas -/

theorem dget?_dictUpdate_right {α : Type} (d1 d2 : List (String × α))
    (k : String) (v : α) (h : dget? d2 k = some v) :
    dget? (dictUpdate d1 d2) k = some v := by
  unfold dget? dictUpdate
  unfold dget? at h
  rw [List.find?_append]
  rcases hf : d2.find? (fun p => p.1 == k) with _ | p
  · rw [hf] at h; simp at h
  · rw [hf] at h
    simp [hf, h]

theorem getD_map_of_lt {α β : Type} (f : α → β) (l : List α) (n : Nat)
    (d : α) (d' : β) (h : n < l.length) :
    (l.map f).getD n d' = f (l.getD n d) := by
  induction l generalizing n with
  | nil => simp at h
  | cons a t ih =>
    cases n with
    | zero => simp
    | succ m =>
      simp only [List.map_cons, List.getD_cons_succ]
      exact ih m (by simpa using h)

theorem npArgmin_lt_length (l : List Rat) (h : l ≠ []) :
    npArgmin l < l.length := by
  induction l with
  | nil => exact absurd rfl h
  | cons x t ih =>
    cases t with
    | nil => simp [npArgmin]
    | cons y xs =>
      simp only [npArgmin]
      split
      · have := ih (by simp)
        simpa using Nat.succ_lt_succ this
      · simp

theorem npArgmin_le (l : List Rat) (j : Nat) (hj : j < l.length) :
    l.getD (npArgmin l) 0 ≤ l.getD j 0 := by
  induction l generalizing j with
  | nil => simp at hj
  | cons x t ih =>
    cases t with
    | nil =>
      have : j = 0 := Nat.lt_one_iff.mp (by simpa using hj)
      subst this
      simp [npArgmin]
    | cons y xs =>
      simp only [npArgmin]
      split
      · rename_i hlt
        rw [List.getD_cons_succ]
        cases j with
        | zero => rw [List.getD_cons_zero]; exact le_of_lt hlt
        | succ j' =>
          rw [List.getD_cons_succ]
          exact ih j' (by simpa using hj)
      · rename_i hge
        rw [List.getD_cons_zero]
        cases j with
        | zero => simp
        | succ j' =>
          rw [List.getD_cons_succ]
          exact le_trans (le_of_not_lt hge) (ih j' (by simpa using hj))

theorem npArgmin_first (l : List Rat) (j : Nat) (hj : j < npArgmin l) :
    l.getD (npArgmin l) 0 < l.getD j 0 := by
  induction l generalizing j with
  | nil => simp [npArgmin] at hj
  | cons x t ih =>
    cases t with
    | nil => simp [npArgmin] at hj
    | cons y xs =>
      simp only [npArgmin] at hj ⊢
      split at hj
      · rename_i hlt
        simp only [if_pos hlt]
        rw [List.getD_cons_succ]
        cases j with
        | zero => rw [List.getD_cons_zero]; exact hlt
        | succ j' =>
          rw [List.getD_cons_succ]
          exact ih j' (Nat.lt_of_succ_lt_succ hj)
      · exact absurd hj (Nat.not_lt_zero j)

theorem get_distgen_settings_eq_inl (b : ImpactTBeamline)
    (rule : String → Bool) :
    b.get_distgen_settings rule =
      Sum.inl (b.settings.filter (fun p => rule p.1)) := rfl

theorem get_ImpactTin_settings_eq_inl (b : ImpactTBeamline)
    (rule : String → Bool) :
    b.get_ImpactTin_settings rule =
      Sum.inl (b.settings.filter (fun p => !rule p.1)) := rfl

theorem copyAll_eq (dataDir rd : String) (fs : List String) (w : World) :
    copyAll dataDir rd fs w =
      { w with
          files := w.files ++ fs.map (fun f => pathJoin rd f)
          trace := w.trace ++
            fs.map (fun f => Ev.copyFileStep (pathJoin dataDir f) rd) } := by
  induction fs generalizing w with
  | nil => simp [copyAll]
  | cons f fs ih =>
    simp [copyAll, ih]

/-! ## Claims -/

/-- Claim C2: for every function wrapped by the negative-velocity guard and
every call whose first positional `ImpactTBeamline` argument is `b` and in
which a configured `negative_v_value` is in effect (present in the declared
defaults merged with the supplied keywords): if the `fort.26` table read
from `b` contains any negative `avgPz`, the wrapped call returns exactly
that configured value — independently of `func`, so the wrapped function is
never invoked; otherwise the wrapped function is invoked on the original
arguments and its result is returned. -/
theorem claim_C2_negative_velocity_guard (func : PyFunc)
    (defaults : List (String × Val)) (args : List Val)
    (kwargs : List (String × Val)) (b : ImpactTBeamline) (v : Val)
    (hb : (args.filterMap Val.asBeamline).head? = some b)
    (hv : dget? (dictUpdate defaults kwargs) "negative_v_value" = some v) :
    ((b.getFort 26).any (fun r => decide (r.avgPz < 0)) = true →
      block_negative_velocity func defaults args kwargs = Except.ok v) ∧
    ((b.getFort 26).any (fun r => decide (r.avgPz < 0)) = false →
      block_negative_velocity func defaults args kwargs = func args kwargs) := by
  rcases hl : args.filterMap Val.asBeamline with _ | ⟨tb, rest⟩
  · rw [hl] at hb; simp at hb
  · rw [hl] at hb
    simp only [List.head?_cons, Option.some.injEq] at hb
    subst hb
    constructor
    · intro hneg
      simp [block_negative_velocity, hl, hneg, hv]
    · intro hpos
      simp [block_negative_velocity, hl, hpos]

/-- Witness for C2 at a concrete call: with `fort.26` of `bNeg` containing a
negative `avgPz` and `negative_v_value` supplied as a keyword, the guard
returns that value without calling the wrapped function. -/
theorem claim_C2_witness :
    (([Val.beamline bNeg].filterMap Val.asBeamline).head? = some bNeg) ∧
    (dget? (dictUpdate [] [("negative_v_value", Val.num 3)])
      "negative_v_value" = some (Val.num 3)) ∧
    (((bNeg.getFort 26).any (fun r => decide (r.avgPz < 0)) = true →
      block_negative_velocity funcOk [] [Val.beamline bNeg]
        [("negative_v_value", Val.num 3)] = Except.ok (Val.num 3)) ∧
     ((bNeg.getFort 26).any (fun r => decide (r.avgPz < 0)) = false →
      block_negative_velocity funcOk [] [Val.beamline bNeg]
        [("negative_v_value", Val.num 3)] =
          funcOk [Val.beamline bNeg] [("negative_v_value", Val.num 3)])) :=
  ⟨rfl, rfl,
   claim_C2_negative_velocity_guard funcOk [] [Val.beamline bNeg]
     [("negative_v_value", Val.num 3)] bNeg (Val.num 3) rfl rfl⟩

/-- Claim C3: when the wrapped call raises a subprocess timeout, the timeout
wrapper returns the `timeout_value` from the supplied keyword arguments
merged over the declared defaults if that key is in effect, and `None`
otherwise, instead of propagating the exception. -/
theorem claim_C3_timeout_default (func : PyFunc)
    (defaults : List (String × Val)) (args : List Val)
    (kwargs : List (String × Val))
    (ht : func args kwargs = Except.error PyExc.timeoutExpired) :
    (try_except_timeout func defaults args kwargs).2 =
      Except.ok (dgetD (dictUpdate defaults kwargs) "timeout_value"
        Val.none) := by
  simp only [try_except_timeout, ht, dgetD]
  rcases h : dget? (dictUpdate defaults kwargs) "timeout_value" with _ | v <;>
    simp [h]

/-- Witness for C3 at a concrete call: a declared default
`timeout_value = 7` is returned when the wrapped function times out. -/
theorem claim_C3_witness :
    (funcTimeout [] [] = Except.error PyExc.timeoutExpired) ∧
    (try_except_timeout funcTimeout [("timeout_value", Val.num 7)] [] []).2 =
      Except.ok (dgetD (dictUpdate [("timeout_value", Val.num 7)] [])
        "timeout_value" Val.none) :=
  ⟨rfl, claim_C3_timeout_default funcTimeout [("timeout_value", Val.num 7)]
    [] [] rfl⟩

/-- Claim C4: in both decorators' fallback lookup (`get_default_args(func)`
then `.update(kwargs)`), a caller-supplied keyword value takes precedence
over a declared function default for the same key, and the returned
fallback is the caller-supplied value. -/
theorem claim_C4_kwarg_precedence :
    (∀ (func : PyFunc) (defaults : List (String × Val)) (args : List Val)
      (kwargs : List (String × Val)) (dv kv : Val),
      dget? defaults "timeout_value" = some dv →
      dget? kwargs "timeout_value" = some kv →
      func args kwargs = Except.error PyExc.timeoutExpired →
      (try_except_timeout func defaults args kwargs).2 = Except.ok kv) ∧
    (∀ (func : PyFunc) (defaults : List (String × Val)) (args : List Val)
      (kwargs : List (String × Val)) (b : ImpactTBeamline) (dv kv : Val),
      (args.filterMap Val.asBeamline).head? = some b →
      (b.getFort 26).any (fun r => decide (r.avgPz < 0)) = true →
      dget? defaults "negative_v_value" = some dv →
      dget? kwargs "negative_v_value" = some kv →
      block_negative_velocity func defaults args kwargs = Except.ok kv) := by
  constructor
  · intro func defaults args kwargs dv kv _ hk ht
    have hu := dget?_dictUpdate_right defaults kwargs "timeout_value" kv hk
    simp [try_except_timeout, ht, hu]
  · intro func defaults args kwargs b dv kv hb hneg _ hk
    have hu :=
      dget?_dictUpdate_right defaults kwargs "negative_v_value" kv hk
    rcases hl : args.filterMap Val.asBeamline with _ | ⟨tb, rest⟩
    · rw [hl] at hb; simp at hb
    · rw [hl] at hb
      simp only [List.head?_cons, Option.some.injEq] at hb
      subst hb
      simp [block_negative_velocity, hl, hneg, hu]

/-- Witness for C4 at concrete calls: with a declared default and an
explicit keyword for the same key, both decorators return the
caller-supplied value (2 and 3), not the declared default (1). -/
theorem claim_C4_witness :
    ((dget? [("timeout_value", Val.num 1)] "timeout_value" =
        some (Val.num 1)) ∧
     (dget? [("timeout_value", Val.num 2)] "timeout_value" =
        some (Val.num 2)) ∧
     (try_except_timeout funcTimeout [("timeout_value", Val.num 1)] []
        [("timeout_value", Val.num 2)]).2 = Except.ok (Val.num 2)) ∧
    ((dget? [("negative_v_value", Val.num 1)] "negative_v_value" =
        some (Val.num 1)) ∧
     (dget? [("negative_v_value", Val.num 3)] "negative_v_value" =
        some (Val.num 3)) ∧
     (block_negative_velocity funcOk [("negative_v_value", Val.num 1)]
        [Val.beamline bNeg] [("negative_v_value", Val.num 3)] =
          Except.ok (Val.num 3))) :=
  ⟨⟨rfl, rfl,
    claim_C4_kwarg_precedence.1 funcTimeout [("timeout_value", Val.num 1)]
      [] [("timeout_value", Val.num 2)] (Val.num 1) (Val.num 2) rfl rfl rfl⟩,
   ⟨rfl, rfl,
    claim_C4_kwarg_precedence.2 funcOk [("negative_v_value", Val.num 1)]
      [Val.beamline bNeg] [("negative_v_value", Val.num 3)] bNeg (Val.num 1)
      (Val.num 3) rfl rfl rfl rfl⟩⟩

/-- Claim C7: when no generator is configured (`gen is None`), `makeDist`
is a no-op: for every world, every partition rule (so in particular without
consulting the generator settings) and every file name, it returns the
world unchanged and raises nothing. -/
theorem claim_C7_makeDist_noop (rule : String → Bool) (b : ImpactTBeamline)
    (w : World) (fn : String) (hg : b.gen = Option.none) :
    b.makeDist rule w fn = (w, Option.none) := by
  simp [ImpactTBeamline.makeDist, hg]

/-- Witness for C7 at a concrete orchestrator without a generator. -/
theorem claim_C7_witness :
    (bNeg.gen = Option.none) ∧
    bNeg.makeDist ruleEx wEx "partcl.data" = (wEx, Option.none) :=
  ⟨rfl, claim_C7_makeDist_noop ruleEx bNeg wEx "partcl.data" rfl⟩

/-- Claim C8: when the wrapped call raises a subprocess non-zero-exit error,
the timeout wrapper logs the failure and re-raises the same exception; no
default-value substitution happens on this path. -/
theorem claim_C8_called_process_reraise (func : PyFunc)
    (defaults : List (String × Val)) (args : List Val)
    (kwargs : List (String × Val)) (rc : Int)
    (h : func args kwargs = Except.error (PyExc.calledProcessError rc)) :
    try_except_timeout func defaults args kwargs =
      (["Command failed with error: " ++ toString rc],
       Except.error (PyExc.calledProcessError rc)) := by
  simp [try_except_timeout, h]

/-- Witness for C8 at a concrete call failing with exit code 2. -/
theorem claim_C8_witness :
    (funcCalled [] [("timeout_value", Val.num 7)] =
      Except.error (PyExc.calledProcessError 2)) ∧
    try_except_timeout funcCalled [] [] [("timeout_value", Val.num 7)] =
      (["Command failed with error: " ++ toString (2 : Int)],
       Except.error (PyExc.calledProcessError 2)) :=
  ⟨rfl, claim_C8_called_process_reraise funcCalled [] []
    [("timeout_value", Val.num 7)] 2 rfl⟩

/-- Claim C9: the negative-velocity guard locates the orchestrator only
among positional arguments; when no positional argument is an
`ImpactTBeamline` — even if keyword arguments hold one (they are filtered
by type but the result is unused, as in the source) — the call fails with
`IndexError` before the wrapped function or any fallback value is
reached. -/
theorem claim_C9_positional_only (func : PyFunc)
    (defaults : List (String × Val)) (args : List Val)
    (kwargs : List (String × Val))
    (h : args.filterMap Val.asBeamline = []) :
    block_negative_velocity func defaults args kwargs =
      Except.error PyExc.indexError := by
  simp [block_negative_velocity, h]

/-- Witness for C9 at a concrete call where the orchestrator is supplied
only as a keyword argument. -/
theorem claim_C9_witness :
    ([Val.num 1].filterMap Val.asBeamline = []) ∧
    block_negative_velocity funcOk [("negative_v_value", Val.num 3)]
      [Val.num 1] [("beamline", Val.beamline bNeg)] =
        Except.error PyExc.indexError :=
  ⟨rfl, claim_C9_positional_only funcOk [("negative_v_value", Val.num 3)]
    [Val.num 1] [("beamline", Val.beamline bNeg)] rfl⟩

/-- Claim C1 (spec-modelled `split`): `get_ImpactTin_settings` and
`get_distgen_settings` partition the settings mapping disjointly — every
settings key lands in exactly one of the two returned subsets, keys matched
by the static distgen rule in the "distgen" subset and all remaining keys
(those the rule leaves unmatched) in the "original" subset. -/
theorem claim_C1_settings_partition (rule : String → Bool)
    (b : ImpactTBeamline) (k : String)
    (hk : k ∈ b.settings.map (fun p => p.1)) :
    (rule k = true →
      k ∈ sumKeys (b.get_distgen_settings rule) ∧
      k ∉ sumKeys (b.get_ImpactTin_settings rule)) ∧
    (rule k = false →
      k ∉ sumKeys (b.get_distgen_settings rule) ∧
      k ∈ sumKeys (b.get_ImpactTin_settings rule)) := by
  rw [List.mem_map] at hk
  obtain ⟨p, hp, hpk⟩ := hk
  rw [get_distgen_settings_eq_inl, get_ImpactTin_settings_eq_inl]
  simp only [sumKeys, List.mem_map, List.mem_filter]
  constructor
  · intro hr
    constructor
    · exact ⟨p, ⟨hp, by rw [hpk]; exact hr⟩, hpk⟩
    · rintro ⟨q, ⟨_, hq⟩, hqk⟩
      rw [hqk, hr] at hq
      simp at hq
  · intro hr
    constructor
    · rintro ⟨q, ⟨_, hq⟩, hqk⟩
      rw [hqk, hr] at hq
      simp at hq
    · exact ⟨p, ⟨hp, by rw [hpk, hr]; simp⟩, hpk⟩

/-- Witness for C1 at a concrete settings mapping `{x, y}` with the rule
sending `x` to distgen: `x` lands only in the distgen subset and `y` only
in the original subset. -/
theorem claim_C1_witness :
    ("y" ∈ bNeg.settings.map (fun p => p.1)) ∧
    ((ruleEx "y" = true →
      "y" ∈ sumKeys (bNeg.get_distgen_settings ruleEx) ∧
      "y" ∉ sumKeys (bNeg.get_ImpactTin_settings ruleEx)) ∧
     (ruleEx "y" = false →
      "y" ∉ sumKeys (bNeg.get_distgen_settings ruleEx) ∧
      "y" ∈ sumKeys (bNeg.get_ImpactTin_settings ruleEx))) :=
  ⟨by simp [bNeg],
   claim_C1_settings_partition ruleEx bNeg "y" (by simp [bNeg])⟩

/-- Claim C10: `gaussian_RMS_to_FWHM` is the exact inverse of
`gaussian_FWHM_to_RMS` — the round trip is the identity in both directions —
and both scale by the constant factor `2*sqrt(2*ln 2)` (the float
arithmetic of the source is idealised over `ℝ`). -/
theorem claim_C10_gaussian_roundtrip :
    (∀ x : ℝ, gaussian_RMS_to_FWHM (gaussian_FWHM_to_RMS x) = x) ∧
    (∀ x : ℝ, gaussian_FWHM_to_RMS (gaussian_RMS_to_FWHM x) = x) ∧
    (∀ x : ℝ,
      gaussian_FWHM_to_RMS x = x / (2 * Real.sqrt (2 * Real.log 2)) ∧
      gaussian_RMS_to_FWHM x = x * (2 * Real.sqrt (2 * Real.log 2))) := by
  have h1 : (0 : ℝ) < Real.log 2 := Real.log_pos one_lt_two
  have h2 : (0 : ℝ) < Real.sqrt (2 * Real.log 2) :=
    Real.sqrt_pos.mpr (by linarith)
  have hc : (2 : ℝ) * Real.sqrt (2 * Real.log 2) ≠ 0 := by positivity
  refine ⟨fun x => ?_, fun x => ?_, fun x => ⟨rfl, rfl⟩⟩
  · unfold gaussian_RMS_to_FWHM gaussian_FWHM_to_RMS
    exact div_mul_cancel₀ x hc
  · unfold gaussian_RMS_to_FWHM gaussian_FWHM_to_RMS
    exact mul_div_cancel_right₀ x hc

theorem zcolLen (fort_num : Nat) (df : List FortRow) :
    (if fort_num = 18 then df.map (fun r => r.dist)
     else df.map (fun r => r.z)).length = df.length := by
  by_cases h : fort_num = 18 <;> simp [h]

theorem zcolGetD (fort_num : Nat) (df : List FortRow) (m : Nat)
    (hm : m < df.length) :
    (if fort_num = 18 then df.map (fun r => r.dist)
     else df.map (fun r => r.z)).getD m 0 =
      fortField fort_num (df.getD m ⟨0, 0, 0⟩) := by
  by_cases h : fort_num = 18
  · simp only [fortField, h, if_true]
    exact getD_map_of_lt (fun r => r.dist) df m ⟨0, 0, 0⟩ 0 hm
  · simp only [fortField, h, if_false]
    exact getD_map_of_lt (fun r => r.z) df m ⟨0, 0, 0⟩ 0 hm

/-- Claim C5: for every output table and requested position list,
`getFort_z_pos` returns, for each requested position, the table row whose
recorded position is nearest in absolute distance, ties broken by the first
occurrence (lowest row index); the comparison field is `dist` when the file
number is 18 and `z` otherwise (`fortField`). -/
theorem claim_C5_nearest_row (b : ImpactTBeamline) (fort_num : Nat)
    (ps : List Rat) (hdf : b.getFort fort_num ≠ []) :
    ∃ res, b.getFort_z_pos fort_num ps = some res ∧
      res.length = ps.length ∧
      ∀ j, j < ps.length →
        ∃ i, i < (b.getFort fort_num).length ∧
          res.getD j ⟨0, 0, 0⟩ = (b.getFort fort_num).getD i ⟨0, 0, 0⟩ ∧
          (∀ m, m < (b.getFort fort_num).length →
            |fortField fort_num ((b.getFort fort_num).getD i ⟨0, 0, 0⟩) -
                ps.getD j 0| ≤
              |fortField fort_num ((b.getFort fort_num).getD m ⟨0, 0, 0⟩) -
                ps.getD j 0|) ∧
          (∀ m, m < i →
            |fortField fort_num ((b.getFort fort_num).getD i ⟨0, 0, 0⟩) -
                ps.getD j 0| <
              |fortField fort_num ((b.getFort fort_num).getD m ⟨0, 0, 0⟩) -
                ps.getD j 0|) := by
  have hlp : 0 < (b.getFort fort_num).length := List.length_pos.mpr hdf
  have hie : (b.getFort fort_num).isEmpty = false := by
    simp [List.isEmpty_iff, hdf]
  refine ⟨ps.map (fun z_pos =>
      (b.getFort fort_num).getD
        (npArgmin ((if fort_num = 18 then
            (b.getFort fort_num).map (fun r => r.dist)
          else (b.getFort fort_num).map (fun r => r.z)).map
            (fun zi => |zi - z_pos|))) ⟨0, 0, 0⟩), ?_, by simp, ?_⟩
  · simp [ImpactTBeamline.getFort_z_pos, hie]
  · intro j hj
    have hRj := getD_map_of_lt (fun z_pos =>
        (b.getFort fort_num).getD
          (npArgmin ((if fort_num = 18 then
              (b.getFort fort_num).map (fun r => r.dist)
            else (b.getFort fort_num).map (fun r => r.z)).map
              (fun zi => |zi - z_pos|))) ⟨0, 0, 0⟩)
      ps j 0 ⟨0, 0, 0⟩ hj
    have hdlen :
        (((if fort_num = 18 then
            (b.getFort fort_num).map (fun r => r.dist)
          else (b.getFort fort_num).map (fun r => r.z)).map
            (fun zi => |zi - ps.getD j 0|)).length) =
          (b.getFort fort_num).length := by
      rw [List.length_map, zcolLen]
    have hdne :
        ((if fort_num = 18 then
            (b.getFort fort_num).map (fun r => r.dist)
          else (b.getFort fort_num).map (fun r => r.z)).map
            (fun zi => |zi - ps.getD j 0|)) ≠ [] := by
      intro h
      rw [h] at hdlen
      simp at hdlen
      omega
    have hi := npArgmin_lt_length _ hdne
    rw [hdlen] at hi
    have hdiff : ∀ m, m < (b.getFort fort_num).length →
        ((if fort_num = 18 then
            (b.getFort fort_num).map (fun r => r.dist)
          else (b.getFort fort_num).map (fun r => r.z)).map
            (fun zi => |zi - ps.getD j 0|)).getD m 0 =
          |fortField fort_num ((b.getFort fort_num).getD m ⟨0, 0, 0⟩) -
            ps.getD j 0| := by
      intro m hm
      have hmz : m < (if fort_num = 18 then
          (b.getFort fort_num).map (fun r => r.dist)
        else (b.getFort fort_num).map (fun r => r.z)).length := by
        rw [zcolLen]; exact hm
      rw [getD_map_of_lt (fun zi => |zi - ps.getD j 0|) _ m 0 0 hmz,
        zcolGetD fort_num (b.getFort fort_num) m hm]
    refine ⟨npArgmin ((if fort_num = 18 then
        (b.getFort fort_num).map (fun r => r.dist)
      else (b.getFort fort_num).map (fun r => r.z)).map
        (fun zi => |zi - ps.getD j 0|)), hi, hRj, ?_, ?_⟩
    · intro m hm
      have hle := npArgmin_le ((if fort_num = 18 then
          (b.getFort fort_num).map (fun r => r.dist)
        else (b.getFort fort_num).map (fun r => r.z)).map
          (fun zi => |zi - ps.getD j 0|)) m (by rw [hdlen]; exact hm)
      rwa [hdiff _ hi, hdiff m hm] at hle
    · intro m hm
      have hfst := npArgmin_first ((if fort_num = 18 then
          (b.getFort fort_num).map (fun r => r.dist)
        else (b.getFort fort_num).map (fun r => r.z)).map
          (fun zi => |zi - ps.getD j 0|)) m hm
      rwa [hdiff _ hi, hdiff m (lt_trans hm hi)] at hfst

/-- Witness for C5 at a concrete table: `fort.18` of `bNeg` with requested
position 5 (nearest `dist` is 5, row index 1). -/
theorem claim_C5_witness :
    (bNeg.getFort 18 ≠ []) ∧
    (∃ res, bNeg.getFort_z_pos 18 [5] = some res ∧
      res.length = ([5] : List Rat).length ∧
      ∀ j, j < ([5] : List Rat).length →
        ∃ i, i < (bNeg.getFort 18).length ∧
          res.getD j ⟨0, 0, 0⟩ = (bNeg.getFort 18).getD i ⟨0, 0, 0⟩ ∧
          (∀ m, m < (bNeg.getFort 18).length →
            |fortField 18 ((bNeg.getFort 18).getD i ⟨0, 0, 0⟩) -
                ([5] : List Rat).getD j 0| ≤
              |fortField 18 ((bNeg.getFort 18).getD m ⟨0, 0, 0⟩) -
                ([5] : List Rat).getD j 0|) ∧
          (∀ m, m < i →
            |fortField 18 ((bNeg.getFort 18).getD i ⟨0, 0, 0⟩) -
                ([5] : List Rat).getD j 0| <
              |fortField 18 ((bNeg.getFort 18).getD m ⟨0, 0, 0⟩) -
                ([5] : List Rat).getD j 0|)) :=
  ⟨by decide, claim_C5_nearest_row bNeg 18 [5] (by decide)⟩

/-- Claim C6: `run()` performs its five steps in the fixed order directory
creation, input-deck rendering, distribution generation, data-file copy,
executable invocation (first conjunct: the effect trace of a fully
successful run), and there is no rollback on partial failure (second
conjunct: when step 3 — the external generator pipeline — fails, the run
stops with that exception while the directory from step 1 and the rendered
input file from step 2 remain in place, the trace holding exactly the
effects of steps 1 and 2). -/
theorem claim_C6_run_order_no_rollback :
    (∀ (rule : String → Bool) (dataDir : String) (b : ImpactTBeamline)
      (w : World) (g : Generator),
      b.gen = some g →
      g.runGen (dictUpdate g.vars (b.distgenVars rule)) = Except.ok () →
      b.impactExec = Except.ok () →
      b.run_dir ∉ w.dirs →
      (b.run rule dataDir w).2 = Option.none ∧
      (b.run rule dataDir w).1.trace = w.trace ++
        ([Ev.mkdirStep b.run_dir,
          Ev.writeImpactInStep (pathJoin b.run_dir "ImpactT.in")
            (b.impact_file.render (b.get_ImpactTin_settings rule)),
          Ev.writeDistStep (pathJoin b.run_dir "partcl.data")] ++
         b.data_files.map (fun f =>
           Ev.copyFileStep (pathJoin dataDir f) b.run_dir) ++
         [Ev.execStep ("mpirun -n " ++ toString b.num_process ++ " " ++
           b.impact_exe_path ++ " > output.txt")])) ∧
    (∀ (rule : String → Bool) (dataDir : String) (b : ImpactTBeamline)
      (w : World) (g : Generator) (e : PyExc),
      b.gen = some g →
      g.runGen (dictUpdate g.vars (b.distgenVars rule)) = Except.error e →
      b.run_dir ∉ w.dirs →
      (b.run rule dataDir w).2 = some e ∧
      b.run_dir ∈ (b.run rule dataDir w).1.dirs ∧
      pathJoin b.run_dir "ImpactT.in" ∈ (b.run rule dataDir w).1.files ∧
      (b.run rule dataDir w).1.trace = w.trace ++
        [Ev.mkdirStep b.run_dir,
         Ev.writeImpactInStep (pathJoin b.run_dir "ImpactT.in")
           (b.impact_file.render (b.get_ImpactTin_settings rule))]) := by
  constructor
  · intro rule dataDir b w g hg hr hx hw
    simp [ImpactTBeamline.run, ImpactTBeamline.make_run_dir, hw,
      ImpactTBeamline.makeImpactIn, ImpactTBeamline.makeDist, hg, hr,
      ImpactTBeamline.populateDataFiles, copyAll_eq,
      ImpactTBeamline.callImpactT, hx, List.append_assoc]
  · intro rule dataDir b w g e hg hr hw
    simp [ImpactTBeamline.run, ImpactTBeamline.make_run_dir, hw,
      ImpactTBeamline.makeImpactIn, ImpactTBeamline.makeDist, hg, hr,
      List.append_assoc]

/-- Witness for C6 at concrete runs: `bRunOk`'s run succeeds with the five
steps' effects in order; `bRunBad`'s run fails at step 3, leaving the
directory and the rendered input deck from steps 1 and 2 in place. -/
theorem claim_C6_witness :
    ((bRunOk.gen = some exGenOk) ∧
     (exGenOk.runGen (dictUpdate exGenOk.vars (bRunOk.distgenVars ruleEx)) =
       Except.ok ()) ∧
     (bRunOk.impactExec = Except.ok ()) ∧
     (bRunOk.run_dir ∉ wEx.dirs) ∧
     ((bRunOk.run ruleEx "data" wEx).2 = Option.none ∧
      (bRunOk.run ruleEx "data" wEx).1.trace = wEx.trace ++
        ([Ev.mkdirStep bRunOk.run_dir,
          Ev.writeImpactInStep (pathJoin bRunOk.run_dir "ImpactT.in")
            (bRunOk.impact_file.render
              (bRunOk.get_ImpactTin_settings ruleEx)),
          Ev.writeDistStep (pathJoin bRunOk.run_dir "partcl.data")] ++
         bRunOk.data_files.map (fun f =>
           Ev.copyFileStep (pathJoin "data" f) bRunOk.run_dir) ++
         [Ev.execStep ("mpirun -n " ++ toString bRunOk.num_process ++ " " ++
           bRunOk.impact_exe_path ++ " > output.txt")]))) ∧
    ((bRunBad.gen = some exGenBad) ∧
     (exGenBad.runGen
       (dictUpdate exGenBad.vars (bRunBad.distgenVars ruleEx)) =
         Except.error (PyExc.genError "distgen failed")) ∧
     (bRunBad.run_dir ∉ wEx.dirs) ∧
     ((bRunBad.run ruleEx "data" wEx).2 =
        some (PyExc.genError "distgen failed") ∧
      bRunBad.run_dir ∈ (bRunBad.run ruleEx "data" wEx).1.dirs ∧
      pathJoin bRunBad.run_dir "ImpactT.in" ∈
        (bRunBad.run ruleEx "data" wEx).1.files ∧
      (bRunBad.run ruleEx "data" wEx).1.trace = wEx.trace ++
        [Ev.mkdirStep bRunBad.run_dir,
         Ev.writeImpactInStep (pathJoin bRunBad.run_dir "ImpactT.in")
           (bRunBad.impact_file.render
             (bRunBad.get_ImpactTin_settings ruleEx))])) :=
  ⟨⟨rfl, rfl, rfl, by simp [wEx],
    claim_C6_run_order_no_rollback.1 ruleEx "data" bRunOk wEx exGenOk rfl rfl
      rfl (by simp [wEx])⟩,
   ⟨rfl, rfl, by simp [wEx],
    claim_C6_run_order_no_rollback.2 ruleEx "data" bRunBad wEx exGenBad
      (PyExc.genError "distgen failed") rfl rfl (by simp [wEx])⟩⟩
